import Mathlib

/-!
Shallow embedding of the request-trust pipeline of `lib/frontend/app.js`
(the Express application wiring of the GitHub-for-Jira integration), and
proofs checking the natural-language specification against it.

The embedding follows the source file line by line:
* configuration read from the environment (`NODE_ENV`, `EXCEPTION_DEBUG_MODE`,
  the maintenance flag from `../config/env`);
* the anti-forgery (csurf) setup at lines 45-53;
* the session host binder at lines 96-101;
* the ordered route/middleware table registered on the app (lines 90-139,
  156-163, 185);
* the central error handler `catchErrors` at lines 169-183.

Middlewares whose implementation lives in repository files outside the
provided sources (`github-oauth`, `verify-jira-middleware`,
`jira/authenticate`) are modelled from the specification, and each such
definition says so in its doc comment.
-/

namespace GitHubForJira

/-- HTTP methods that occur in the route table and in the csurf
configuration. -/
inductive Method
  | GET
  | POST
  | PUT
  | DELETE
  | HEAD
  | OPTIONS
deriving DecidableEq, Repr

/-- Process-wide configuration, read from the environment by `app.js`:
`nodeEnv` is `process.env.NODE_ENV` (the empty string when unset),
`exceptionDebugMode` is the truthiness of `process.env.EXCEPTION_DEBUG_MODE`,
and `maintenanceMode` is the value of `isMaintenanceMode()` from
`../config/env`. -/
structure Config where
  nodeEnv : String
  exceptionDebugMode : Bool
  maintenanceMode : Bool
deriving DecidableEq, Repr

/-- The default configuration: no `NODE_ENV` set, no debug flag, maintenance
off. -/
def defaultConfig : Config :=
  { nodeEnv := "", exceptionDebugMode := false, maintenanceMode := false }

/-- The per-browser session record (cookie-session, lines 71-77).  The only
attribute the pipeline in `app.js` reads or writes is `jiraHost`
(`req.session.jiraHost`). -/
structure Session where
  jiraHost : Option String
deriving DecidableEq, Repr

/-- JavaScript truthiness of an optional query-string value:
`undefined` and the empty string are falsy, any other string is truthy. -/
def truthy : Option String → Bool
  | none => false
  | some s => s ≠ ""

/-- The session host binder (lines 96-101): if `req.query.xdm_e` is truthy,
write it into `req.session.jiraHost`; otherwise leave the session as it is. -/
def sessionHostBinder (xdm_e : Option String) (s : Session) : Session :=
  if truthy xdm_e then { s with jiraHost := xdm_e } else s

/-- Session effects of the successive request-processing stages of `app.js`,
in registration order.  Line 98 (inside the session host binder) is the only
statement in the file that writes to `req.session`; every other stage
(body parsing at 65-66, the log middleware at 79, the github client
middleware at 103, `addSentryContext` at 141-154, which only reads
`req.session.jiraHost`) leaves the session unchanged. -/
def pipelineSessionSteps (xdm_e : Option String) : List (Session → Session) :=
  [ fun s => s,
    fun s => s,
    sessionHostBinder xdm_e,
    fun s => s,
    fun s => s ]

/-- The session after all stages of the pipeline have run on a request
carrying query value `xdm_e`. -/
def sessionAfterPipeline (xdm_e : Option String) (s : Session) : Session :=
  (pipelineSessionSteps xdm_e).foldl (fun t f => f t) s

/-- Anti-forgery exempt methods, from the csurf setup at lines 45-53: in the
test configuration (`NODE_ENV === 'test'`) the ignore list is GET, HEAD,
OPTIONS, POST, PUT; otherwise csurf is constructed with no options and runs
with its documented default ignore list GET, HEAD, OPTIONS. -/
def csrfIgnoreMethods (cfg : Config) : List Method :=
  if cfg.nodeEnv = "test" then
    [.GET, .HEAD, .OPTIONS, .POST, .PUT]
  else
    [.GET, .HEAD, .OPTIONS]

/-- The middlewares that appear in route chains in `app.js`. -/
inductive Middleware
  | csrfProtection
  | checkGithubAuth
  | verifyJiraMiddleware
  | jiraAuthenticate
deriving DecidableEq, Repr

/-- The terminal handlers of the route table, named after the modules
required at lines 19-41 (plus the static mounts, the root redirect, the
debug-only `/boom` handler, and the two OAuth routes added by
`oauth.addRoutes` at line 185). -/
inductive Handler
  | staticAssets
  | api
  | getJiraConnect
  | getMaintenance
  | getGitHubSetup
  | postGitHubSetup
  | getGitHubConfiguration
  | postGitHubConfiguration
  | listGitHubInstallations
  | getGitHubSubscriptions
  | deleteGitHubSubscription
  | getJiraConfiguration
  | deleteJiraConfiguration
  | retrySync
  | postJiraDisable
  | postJiraEnable
  | postJiraInstall
  | postJiraUninstall
  | rootRedirect
  | boom
  | oauthLogin
  | oauthCallback
deriving DecidableEq, Repr

/-- The credential-relevant facts about one inbound request, as the
middlewares consume them: the HTTP method, whether the submitted
anti-forgery token is present and matches the one bound to the requesting
session, the `jiraHost` currently bound to the session, whether the
tracker-signed proof (JWT) on the request verifies against the tenant's
stored secret, whether a tenant record exists for the host named in the
request, and whether the session carries a valid, non-expired OAuth grant. -/
structure ReqCtx where
  method : Method
  csrfTokenOk : Bool
  sessionJiraHost : Option String
  jiraJwtValid : Bool
  tenantExists : Bool
  githubAuthValid : Bool
deriving DecidableEq, Repr

/-- The outcome of running a route's middleware chain and handler. -/
inductive Result
  | ok (h : Handler)
  | err (kind : String)
  | redirect (location : String)
deriving DecidableEq, Repr

/-- One middleware step: `none` means the middleware passed the request on
(`next()`), `some r` means it ended the request with outcome `r`.

`csrfProtection` is the csurf instance configured at lines 45-53: a method
on the ignore list passes unchecked; otherwise the request passes exactly
when the submitted token matches the session, and fails closed otherwise.
Modelled from the spec: the AntiForgeryGuard (the csurf library, an external
collaborator) fails closed with the `Forbidden` kind on an absent or
mismatched token.

Modelled from the spec: `checkGithubAuth` (in `./github-oauth`, a repository
file not among the provided sources) redirects to the login entry point —
the `loginURI` `/github/login` configured at line 14 — when the session
lacks a valid, non-expired OAuth grant, and passes the request on otherwise.

Modelled from the spec: `verifyJiraMiddleware` (in
`./verify-jira-middleware`, a repository file not among the provided
sources) is the `TrackerSessionBound` gate: it requires `Session.tenantHost`
to be set and raises `Unauthorized` when it is absent.

Modelled from the spec: `jiraAuthenticate` (in `../jira/authenticate`, a
repository file not among the provided sources) is the WebhookAuthenticator
for lifecycle events: no tenant record for the host fails with `Not Found`,
a signature that does not verify against the stored secret fails with
`Unauthorized`, and a verified request passes on. -/
def runMiddleware (cfg : Config) (c : ReqCtx) : Middleware → Option Result
  | .csrfProtection =>
      if c.method ∈ csrfIgnoreMethods cfg then none
      else if c.csrfTokenOk then none
      else some (.err "Forbidden")
  | .checkGithubAuth =>
      if c.githubAuthValid then none else some (.redirect "/github/login")
  | .verifyJiraMiddleware =>
      if c.sessionJiraHost = none then some (.err "Unauthorized") else none
  | .jiraAuthenticate =>
      if c.tenantExists = false then some (.err "Not Found")
      else if c.jiraJwtValid then none
      else some (.err "Unauthorized")

/-- Run a middleware chain in order; the first middleware that ends the
request determines the outcome, and if all pass, the handler runs. -/
def runChain (cfg : Config) (c : ReqCtx) : List Middleware → Handler → Result
  | [], h => .ok h
  | mw :: rest, h =>
      match runMiddleware cfg c mw with
      | some r => r
      | none => runChain cfg c rest h

/-- A registered route: method, path, middleware chain, terminal handler. -/
structure Route where
  method : Method
  path : String
  middlewares : List Middleware
  handler : Handler
deriving DecidableEq, Repr

/-- Run one route on a request: its middleware chain, then its handler. -/
def runRoute (cfg : Config) (c : ReqCtx) (r : Route) : Result :=
  runChain cfg c r.middlewares r.handler

def jiraConnectRoute : Route :=
  ⟨.GET, "/jira/atlassian-connect.json", [], .getJiraConnect⟩

def maintenanceRoute : Route :=
  ⟨.GET, "/maintenance", [.csrfProtection], .getMaintenance⟩

def getGitHubSetupRoute : Route :=
  ⟨.GET, "/github/setup", [.csrfProtection, .checkGithubAuth], .getGitHubSetup⟩

def postGitHubSetupRoute : Route :=
  ⟨.POST, "/github/setup", [.csrfProtection], .postGitHubSetup⟩

def getGitHubConfigurationRoute : Route :=
  ⟨.GET, "/github/configuration", [.csrfProtection, .checkGithubAuth],
    .getGitHubConfiguration⟩

def postGitHubConfigurationRoute : Route :=
  ⟨.POST, "/github/configuration", [.csrfProtection], .postGitHubConfiguration⟩

def listGitHubInstallationsRoute : Route :=
  ⟨.GET, "/github/installations", [.csrfProtection, .checkGithubAuth],
    .listGitHubInstallations⟩

def getGitHubSubscriptionsRoute : Route :=
  ⟨.GET, "/github/subscriptions/:installationId", [.csrfProtection],
    .getGitHubSubscriptions⟩

def postGitHubSubscriptionRoute : Route :=
  ⟨.POST, "/github/subscription", [.csrfProtection], .deleteGitHubSubscription⟩

def getJiraConfigurationRoute : Route :=
  ⟨.GET, "/jira/configuration", [.csrfProtection, .verifyJiraMiddleware],
    .getJiraConfiguration⟩

def deleteJiraConfigurationRoute : Route :=
  ⟨.DELETE, "/jira/configuration", [.verifyJiraMiddleware],
    .deleteJiraConfiguration⟩

def retrySyncRoute : Route :=
  ⟨.POST, "/jira/sync", [.verifyJiraMiddleware], .retrySync⟩

def postJiraDisableRoute : Route :=
  ⟨.POST, "/jira/events/disabled", [.jiraAuthenticate], .postJiraDisable⟩

def postJiraEnableRoute : Route :=
  ⟨.POST, "/jira/events/enabled", [.jiraAuthenticate], .postJiraEnable⟩

def postJiraInstallRoute : Route :=
  ⟨.POST, "/jira/events/installed", [], .postJiraInstall⟩

def postJiraUninstallRoute : Route :=
  ⟨.POST, "/jira/events/uninstalled", [.jiraAuthenticate], .postJiraUninstall⟩

def rootRoute : Route := ⟨.GET, "/", [], .rootRedirect⟩

def boomGetRoute : Route := ⟨.GET, "/boom", [], .boom⟩

def boomPostRoute : Route := ⟨.POST, "/boom", [], .boom⟩

def oauthLoginRoute : Route := ⟨.GET, "/github/login", [], .oauthLogin⟩

def oauthCallbackRoute : Route := ⟨.GET, "/github/callback", [], .oauthCallback⟩

/-- The four tracker lifecycle-event routes (lines 131-134), in
registration order. -/
def lifecycleRoutes : List Route :=
  [postJiraDisableRoute, postJiraEnableRoute, postJiraInstallRoute,
   postJiraUninstallRoute]

/-- Express mount matching on character lists: a mounted sub-application
receives a request whose path equals the mount point or continues it with a
`/` segment separator. -/
def mountMatchesL : List Char → List Char → Bool
  | [], [] => true
  | [], c :: _ => c = '/'
  | _ :: _, [] => false
  | a :: as, b :: bs => a = b && mountMatchesL as bs

/-- Express mount matching on paths. -/
def mountMatches (mountPath p : String) : Bool :=
  mountMatchesL mountPath.toList p.toList

/-- One layer of the application stack, in the order `app.js` registers
them: a sub-application mount (`app.use(path, ...)`), an ordinary route, or
the maintenance-mode check of line 112, which short-circuits every later
layer when the flag is on. -/
inductive Layer
  | mount (mountPath : String) (h : Handler)
  | route (r : Route)
  | maintenanceCheck
deriving DecidableEq, Repr

/-- How a request leaves the routing stack: handled by a layer's handler,
answered by the maintenance short-circuit, or matched by no layer. -/
inductive Outcome
  | handled (h : Handler)
  | maintenance
  | fallthrough
deriving DecidableEq, Repr

/-- The application stack of `app.js` in registration order: the four static
mounts (lines 90-93), the admin API mount (line 106), the Atlassian connect
descriptor route (line 109), the maintenance-mode check (line 112), the
maintenance page and all browser and webhook routes (lines 113-134), the
root redirect (line 136), the `/boom` routes registered only when
`EXCEPTION_DEBUG_MODE` is set or `NODE_ENV` is `development` (lines
156-163), and the OAuth login and callback routes added by
`oauth.addRoutes(app)` at line 185 (paths from the `loginURI` and
`callbackURI` configured at lines 14-15). -/
def appLayers (cfg : Config) : List Layer :=
  [ .mount "/public" .staticAssets,
    .mount "/public/css-reset" .staticAssets,
    .mount "/public/primer" .staticAssets,
    .mount "/public/atlassian-ui-kit" .staticAssets,
    .mount "/api" .api,
    .route jiraConnectRoute,
    .maintenanceCheck,
    .route maintenanceRoute,
    .route getGitHubSetupRoute,
    .route postGitHubSetupRoute,
    .route getGitHubConfigurationRoute,
    .route postGitHubConfigurationRoute,
    .route listGitHubInstallationsRoute,
    .route getGitHubSubscriptionsRoute,
    .route postGitHubSubscriptionRoute,
    .route getJiraConfigurationRoute,
    .route deleteJiraConfigurationRoute,
    .route retrySyncRoute,
    .route postJiraDisableRoute,
    .route postJiraEnableRoute,
    .route postJiraInstallRoute,
    .route postJiraUninstallRoute,
    .route rootRoute ]
  ++ (if cfg.exceptionDebugMode ∨ cfg.nodeEnv = "development" then
        [.route boomGetRoute, .route boomPostRoute]
      else [])
  ++ [ .route oauthLoginRoute, .route oauthCallbackRoute ]

/-- The routes of the application stack (the `Layer.route` entries of
`appLayers`, in the same order). -/
def appRoutes (cfg : Config) : List Route :=
  [ jiraConnectRoute,
    maintenanceRoute,
    getGitHubSetupRoute,
    postGitHubSetupRoute,
    getGitHubConfigurationRoute,
    postGitHubConfigurationRoute,
    listGitHubInstallationsRoute,
    getGitHubSubscriptionsRoute,
    postGitHubSubscriptionRoute,
    getJiraConfigurationRoute,
    deleteJiraConfigurationRoute,
    retrySyncRoute,
    postJiraDisableRoute,
    postJiraEnableRoute,
    postJiraInstallRoute,
    postJiraUninstallRoute,
    rootRoute ]
  ++ (if cfg.exceptionDebugMode ∨ cfg.nodeEnv = "development" then
        [boomGetRoute, boomPostRoute]
      else [])
  ++ [ oauthLoginRoute, oauthCallbackRoute ]

/-- Walk the application stack in order and find which layer answers a
request with the given method and path.  A mount answers every request under
its mount point; a route answers on an exact method-and-path match; the
maintenance check answers every request that reaches it while the
maintenance flag is on. -/
def dispatch (cfg : Config) : List Layer → Method → String → Outcome
  | [], _, _ => .fallthrough
  | .mount mp h :: rest, m, p =>
      if mountMatches mp p then .handled h else dispatch cfg rest m p
  | .route r :: rest, m, p =>
      if r.method = m ∧ r.path = p then .handled r.handler
      else dispatch cfg rest m p
  | .maintenanceCheck :: rest, m, p =>
      if cfg.maintenanceMode then .maintenance else dispatch cfg rest m p

/-- The error-message-to-status table of `catchErrors` (lines 174-178). -/
def errorCodes : String → Option Nat
  | "Unauthorized" => some 401
  | "Forbidden" => some 403
  | "Not Found" => some 404
  | _ => none

/-- The page `catchErrors` renders for every classified error (line 180). -/
def errPage : String := "github-error.hbs"

/-- A finalized error response: HTTP status plus the rendered view. -/
structure ErrResponse where
  status : Nat
  page : String
deriving DecidableEq, Repr

/-- The central error handler `catchErrors` (lines 169-183): in the
development configuration it passes the raw error on (`next(err)`, modelled
as `none`); otherwise it responds with the status looked up by the error's
message — defaulting to 400 — and renders the generic integration-error
page. -/
def catchErrors (cfg : Config) (errMessage : String) : Option ErrResponse :=
  if cfg.nodeEnv = "development" then none
  else some ⟨(errorCodes errMessage).getD 400, errPage⟩

/-- Modelled from the spec: the ErrorClassifier status table of spec
section 4.5 — Unauthorized to 401, Forbidden to 403, NotFound to 404,
anything else to 400 (the Maintenance row is realized by the
maintenance-mode short-circuit, not by the error handler). -/
def specStatus : String → Nat
  | "Unauthorized" => 401
  | "Forbidden" => 403
  | "Not Found" => 404
  | _ => 400

/-- The configuration the test suite runs under (`NODE_ENV === 'test'`). -/
def testConfig : Config :=
  { nodeEnv := "test", exceptionDebugMode := false, maintenanceMode := false }

/-- A maintenance-mode configuration: no `NODE_ENV`, no debug flag, the
maintenance flag on. -/
def maintConfig : Config :=
  { nodeEnv := "", exceptionDebugMode := false, maintenanceMode := true }

/-- The status `catchErrors` computes from an error message agrees with the
spec's classifier table. -/
lemma errorCodes_getD_specStatus (msg : String) :
    (errorCodes msg).getD 400 = specStatus msg := by
  unfold errorCodes specStatus
  split <;> rfl

/-- C3: outside the development configuration, the central error handler
maps Unauthorized to 401, Forbidden to 403, Not Found to 404 and every
other error message to 400, and in every case renders the generic
integration-error page. -/
theorem c3_error_handler_matches_spec_table (cfg : Config) (msg : String)
    (h : cfg.nodeEnv ≠ "development") :
    catchErrors cfg msg = some ⟨specStatus msg, errPage⟩ ∧
    specStatus "Unauthorized" = 401 ∧
    specStatus "Forbidden" = 403 ∧
    specStatus "Not Found" = 404 ∧
    ∀ m, m ∉ (["Unauthorized", "Forbidden", "Not Found"] : List String) →
      specStatus m = 400 := by
  refine ⟨?_, rfl, rfl, rfl, ?_⟩
  · unfold catchErrors
    rw [if_neg h, errorCodes_getD_specStatus]
  · intro m hm
    unfold specStatus
    split <;> simp_all

/-- Witness for C3 at the default configuration and the Not Found error. -/
theorem c3_witness :
    defaultConfig.nodeEnv ≠ "development" ∧
    (catchErrors defaultConfig "Not Found" = some ⟨specStatus "Not Found", errPage⟩ ∧
      specStatus "Unauthorized" = 401 ∧
      specStatus "Forbidden" = 403 ∧
      specStatus "Not Found" = 404 ∧
      ∀ m, m ∉ (["Unauthorized", "Forbidden", "Not Found"] : List String) →
        specStatus m = 400) :=
  ⟨by decide, c3_error_handler_matches_spec_table defaultConfig "Not Found" (by decide)⟩

/-- C4 counterexample: a request can carry the tenant-identifying query
parameter with the empty-string value; the binder (JavaScript truthiness at
line 97) then leaves the previously bound host in place, so after the step
`Session.jiraHost` does not equal the parameter's value. -/
theorem c4_counterexample :
    sessionHostBinder (some "") ⟨some "other.atlassian.net"⟩ =
      ⟨some "other.atlassian.net"⟩ ∧
    (some "other.atlassian.net" : Option String) ≠ some "" := by
  decide

/-- C4 (amended): for every request carrying the tenant parameter with a
nonempty value, after the binder runs `Session.jiraHost` equals that value
regardless of prior session state; a request without the parameter, or with
it present but empty, leaves the session untouched and raises no error. -/
theorem c4_amended_binder_overwrites_host (v : String) (s : Session)
    (hv : v ≠ "") :
    (sessionHostBinder (some v) s).jiraHost = some v ∧
    (∀ t : Session, sessionHostBinder none t = t) ∧
    (∀ t : Session, sessionHostBinder (some "") t = t) := by
  refine ⟨?_, fun t => rfl, fun t => rfl⟩
  simp [sessionHostBinder, truthy, hv]

/-- Witness for C4 (amended) at a concrete nonempty host and a session
already bound to a different host. -/
theorem c4_witness :
    ("me.atlassian.net" : String) ≠ "" ∧
    ((sessionHostBinder (some "me.atlassian.net")
        ⟨some "old.atlassian.net"⟩).jiraHost = some "me.atlassian.net" ∧
      (∀ t : Session, sessionHostBinder none t = t) ∧
      (∀ t : Session, sessionHostBinder (some "") t = t)) :=
  ⟨by decide,
    c4_amended_binder_overwrites_host "me.atlassian.net"
      ⟨some "old.atlassian.net"⟩ (by decide)⟩

/-- C5: among the four lifecycle-event routes, `installed` is the only one
registered without the webhook authenticator: its middleware chain is empty
and its handler always runs, while `disabled`, `enabled` and `uninstalled`
each run `jiraAuthenticate` before their handler. -/
theorem c5_installed_only_unauthenticated_lifecycle :
    postJiraInstallRoute.middlewares = [] ∧
    postJiraDisableRoute.middlewares = [.jiraAuthenticate] ∧
    postJiraEnableRoute.middlewares = [.jiraAuthenticate] ∧
    postJiraUninstallRoute.middlewares = [.jiraAuthenticate] ∧
    lifecycleRoutes =
      [postJiraDisableRoute, postJiraEnableRoute, postJiraInstallRoute,
       postJiraUninstallRoute] ∧
    ∀ (cfg : Config) (c : ReqCtx),
      runRoute cfg c postJiraInstallRoute = .ok .postJiraInstall :=
  ⟨rfl, rfl, rfl, rfl, rfl, fun _ _ => rfl⟩

/-- C8: the central error handler passes the raw error on exactly in the
development configuration, and in the default configuration (no `NODE_ENV`)
it always applies the classifier's status-and-render mapping. -/
theorem c8_debug_bypass_only_in_development :
    (∀ (cfg : Config) (msg : String),
      catchErrors cfg msg = none ↔ cfg.nodeEnv = "development") ∧
    defaultConfig.nodeEnv = "" ∧
    ∀ msg : String,
      catchErrors defaultConfig msg = some ⟨specStatus msg, errPage⟩ := by
  refine ⟨?_, rfl, ?_⟩
  · intro cfg msg
    unfold catchErrors
    split_ifs with h <;> simp [h]
  · intro msg
    unfold catchErrors
    rw [if_neg (by decide), errorCodes_getD_specStatus]

/-- C9: the session host binder treats a tenant parameter equal to the
empty string exactly like an absent parameter: the session is left
unchanged. -/
theorem c9_empty_param_treated_as_absent :
    ∀ s : Session,
      sessionHostBinder (some "") s = s ∧ sessionHostBinder none s = s :=
  fun _ => ⟨rfl, rfl⟩

/-- C10: in the test configuration the anti-forgery exemption list is
exactly GET, HEAD, OPTIONS, POST and PUT: a DELETE without a valid token is
still rejected there, while POST and PUT pass without any token. -/
theorem c10_test_csrf_exemptions (c c2 : ReqCtx) (hd : c.method = .DELETE)
    (ht : c.csrfTokenOk = false) (hp : c2.method = .POST ∨ c2.method = .PUT) :
    csrfIgnoreMethods testConfig = [.GET, .HEAD, .OPTIONS, .POST, .PUT] ∧
    runMiddleware testConfig c .csrfProtection = some (.err "Forbidden") ∧
    runMiddleware testConfig c2 .csrfProtection = none := by
  refine ⟨rfl, ?_, ?_⟩
  · simp [runMiddleware, csrfIgnoreMethods, testConfig, hd, ht]
  · rcases hp with h | h <;> simp [runMiddleware, csrfIgnoreMethods, testConfig, h]

/-- Witness for C10: a concrete DELETE without a token and a concrete POST
without a token, in the test configuration. -/
theorem c10_witness :
    (⟨.DELETE, false, none, false, false, false⟩ : ReqCtx).method = .DELETE ∧
    (⟨.DELETE, false, none, false, false, false⟩ : ReqCtx).csrfTokenOk = false ∧
    ((⟨.POST, false, none, false, false, false⟩ : ReqCtx).method = .POST ∨
      (⟨.POST, false, none, false, false, false⟩ : ReqCtx).method = .PUT) ∧
    (csrfIgnoreMethods testConfig = [.GET, .HEAD, .OPTIONS, .POST, .PUT] ∧
      runMiddleware testConfig ⟨.DELETE, false, none, false, false, false⟩
        .csrfProtection = some (.err "Forbidden") ∧
      runMiddleware testConfig ⟨.POST, false, none, false, false, false⟩
        .csrfProtection = none) :=
  ⟨rfl, rfl, Or.inl rfl,
    c10_test_csrf_exemptions ⟨.DELETE, false, none, false, false, false⟩
      ⟨.POST, false, none, false, false, false⟩ rfl rfl (Or.inl rfl)⟩

/-- C1 counterexample: with the maintenance flag on, a GET for the
Atlassian connect descriptor is answered by its own handler — the route is
registered at line 109, before the maintenance check of line 112 — and not
by the maintenance response.  The admin API mount at line 106 likewise
precedes the check. -/
theorem c1_counterexample :
    dispatch maintConfig (appLayers maintConfig) .GET
      "/jira/atlassian-connect.json" = .handled .getJiraConnect ∧
    dispatch maintConfig (appLayers maintConfig) .GET "/api" =
      .handled .api ∧
    Outcome.handled .getJiraConnect ≠ Outcome.maintenance ∧
    Outcome.handled .api ≠ Outcome.maintenance := by
  decide

/-- C1 (amended): while the maintenance flag is set, every request is
either answered by the maintenance response or by one of the three layer
groups registered before the maintenance check — the static asset mounts,
the admin API mount, and the connect-descriptor route; every route
registered after the check (all browser, configuration and lifecycle
routes) is short-circuited to the maintenance response. -/
theorem c1_amended_maintenance_blocks_later_layers (cfg : Config)
    (m : Method) (p : String) (h : cfg.maintenanceMode = true) :
    dispatch cfg (appLayers cfg) m p = .maintenance ∨
    dispatch cfg (appLayers cfg) m p = .handled .staticAssets ∨
    dispatch cfg (appLayers cfg) m p = .handled .api ∨
    dispatch cfg (appLayers cfg) m p = .handled .getJiraConnect := by
  simp only [appLayers, List.cons_append, List.nil_append]
  simp only [dispatch, h, if_true]
  split_ifs <;> simp [jiraConnectRoute]

/-- Witness for C1 (amended): a concrete request for the GitHub setup page
while maintenance is on. -/
theorem c1_witness :
    maintConfig.maintenanceMode = true ∧
    (dispatch maintConfig (appLayers maintConfig) .GET "/github/setup" =
        .maintenance ∨
      dispatch maintConfig (appLayers maintConfig) .GET "/github/setup" =
        .handled .staticAssets ∨
      dispatch maintConfig (appLayers maintConfig) .GET "/github/setup" =
        .handled .api ∨
      dispatch maintConfig (appLayers maintConfig) .GET "/github/setup" =
        .handled .getJiraConnect) :=
  ⟨rfl, c1_amended_maintenance_blocks_later_layers maintConfig .GET
    "/github/setup" rfl⟩

/-- A request context with no anti-forgery token but a session bound to a
tenant and a verified tracker proof. -/
def noTokenCtx : ReqCtx :=
  { method := .DELETE, csrfTokenOk := false,
    sessionJiraHost := some "example.atlassian.net", jiraJwtValid := true,
    tenantExists := true, githubAuthValid := false }

/-- C2 counterexample: the mutating tenant-bound configuration route
`DELETE /jira/configuration` (line 126) carries no anti-forgery middleware,
so a state-changing browser request without any token reaches its handler
instead of failing with Forbidden. -/
theorem c2_counterexample :
    Layer.route deleteJiraConfigurationRoute ∈ appLayers defaultConfig ∧
    Middleware.csrfProtection ∉ deleteJiraConfigurationRoute.middlewares ∧
    noTokenCtx.csrfTokenOk = false ∧
    runRoute defaultConfig noTokenCtx deleteJiraConfigurationRoute =
      .ok .deleteJiraConfiguration := by
  decide

/-- C2 (amended): among the tenant-bound configuration routes only
`GET /jira/configuration` passes through the anti-forgery guard; the
mutating routes `DELETE /jira/configuration` and `POST /jira/sync` bypass
it entirely, so with a session bound to a tenant they reach their handlers
even when the token is absent or mismatched.  Routes that do carry the
guard, such as `POST /github/setup`, fail closed outside the test
configuration when the token is absent or mismatched. -/
theorem c2_amended_mutating_config_routes_skip_csrf (cfg : Config)
    (c : ReqCtx) (host : String) (htest : cfg.nodeEnv ≠ "test")
    (htok : c.csrfTokenOk = false) (hsess : c.sessionJiraHost = some host) :
    Middleware.csrfProtection ∉ deleteJiraConfigurationRoute.middlewares ∧
    Middleware.csrfProtection ∉ retrySyncRoute.middlewares ∧
    Middleware.csrfProtection ∈ getJiraConfigurationRoute.middlewares ∧
    runRoute cfg { c with method := .DELETE } deleteJiraConfigurationRoute =
      .ok .deleteJiraConfiguration ∧
    runRoute cfg { c with method := .POST } retrySyncRoute = .ok .retrySync ∧
    runRoute cfg { c with method := .POST } postGitHubSetupRoute =
      .err "Forbidden" := by
  refine ⟨by decide, by decide, by decide, ?_, ?_, ?_⟩
  · simp [runRoute, deleteJiraConfigurationRoute, runChain, runMiddleware,
      hsess]
  · simp [runRoute, retrySyncRoute, runChain, runMiddleware, hsess]
  · simp [runRoute, postGitHubSetupRoute, runChain, runMiddleware,
      csrfIgnoreMethods, htest, htok]

/-- Witness for C2 (amended) at the default configuration and a concrete
tokenless request bound to a tenant. -/
theorem c2_witness :
    defaultConfig.nodeEnv ≠ "test" ∧
    noTokenCtx.csrfTokenOk = false ∧
    noTokenCtx.sessionJiraHost = some "example.atlassian.net" ∧
    (Middleware.csrfProtection ∉ deleteJiraConfigurationRoute.middlewares ∧
      Middleware.csrfProtection ∉ retrySyncRoute.middlewares ∧
      Middleware.csrfProtection ∈ getJiraConfigurationRoute.middlewares ∧
      runRoute defaultConfig { noTokenCtx with method := .DELETE }
        deleteJiraConfigurationRoute = .ok .deleteJiraConfiguration ∧
      runRoute defaultConfig { noTokenCtx with method := .POST }
        retrySyncRoute = .ok .retrySync ∧
      runRoute defaultConfig { noTokenCtx with method := .POST }
        postGitHubSetupRoute = .err "Forbidden") :=
  ⟨by decide, rfl, rfl,
    c2_amended_mutating_config_routes_skip_csrf defaultConfig noTokenCtx
      "example.atlassian.net" (by decide) rfl rfl⟩

/-- A single pipeline stage can only keep a bound `jiraHost` or overwrite
it with a truthy tenant parameter; it never clears it. -/
lemma sessionHostBinder_preserves_host (q : Option String) (t : Session)
    (x : String) (ht : t.jiraHost = some x) :
    (sessionHostBinder q t).jiraHost = some x ∨
    (truthy q = true ∧ (sessionHostBinder q t).jiraHost = q) := by
  unfold sessionHostBinder
  split_ifs with hq
  · exact Or.inr ⟨hq, rfl⟩
  · exact Or.inl ht

/-- C6: once `Session.jiraHost` is set, the whole pipeline — and each of
its stages individually — either leaves it unchanged or overwrites it with
the (truthy) tenant parameter of a new request; no stage ever clears it. -/
theorem c6_tenant_host_never_cleared (q : Option String) (s : Session)
    (x : String) (hs : s.jiraHost = some x) :
    ((sessionAfterPipeline q s).jiraHost = some x ∨
      (truthy q = true ∧ (sessionAfterPipeline q s).jiraHost = q)) ∧
    ∀ f ∈ pipelineSessionSteps q, ∀ (t : Session) (y : String),
      t.jiraHost = some y →
      ((f t).jiraHost = some y ∨
        (truthy q = true ∧ (f t).jiraHost = q)) := by
  constructor
  · have h := sessionHostBinder_preserves_host q s x hs
    simpa [sessionAfterPipeline, pipelineSessionSteps] using h
  · intro f hf t y hty
    simp only [pipelineSessionSteps, List.mem_cons,
      List.not_mem_nil, or_false] at hf
    rcases hf with rfl | rfl | rfl | rfl | rfl
    · exact Or.inl hty
    · exact Or.inl hty
    · exact sessionHostBinder_preserves_host q t y hty
    · exact Or.inl hty
    · exact Or.inl hty

/-- Witness for C6: a session bound to one host receiving a request that
carries a new truthy tenant parameter. -/
theorem c6_witness :
    (⟨some "old.atlassian.net"⟩ : Session).jiraHost =
      some "old.atlassian.net" ∧
    (((sessionAfterPipeline (some "new.atlassian.net")
          ⟨some "old.atlassian.net"⟩).jiraHost = some "old.atlassian.net" ∨
        (truthy (some "new.atlassian.net") = true ∧
          (sessionAfterPipeline (some "new.atlassian.net")
              ⟨some "old.atlassian.net"⟩).jiraHost =
            some "new.atlassian.net")) ∧
      ∀ f ∈ pipelineSessionSteps (some "new.atlassian.net"),
        ∀ (t : Session) (y : String), t.jiraHost = some y →
        ((f t).jiraHost = some y ∨
          (truthy (some "new.atlassian.net") = true ∧
            (f t).jiraHost = some "new.atlassian.net"))) :=
  ⟨rfl, c6_tenant_host_never_cleared (some "new.atlassian.net")
    ⟨some "old.atlassian.net"⟩ "old.atlassian.net" rfl⟩

/-- The three routes gated on the GitHub OAuth session. -/
def githubSessionRoutes : List Route :=
  [getGitHubSetupRoute, getGitHubConfigurationRoute,
   listGitHubInstallationsRoute]

/-- C7: exactly the three GitHub browser routes run `oauth.checkGithubAuth`;
on each of them a GET whose session lacks a valid OAuth grant is answered
with a redirect to the login entry point `/github/login`, and no middleware
other than `checkGithubAuth` can ever produce a redirect. -/
theorem c7_github_auth_failure_redirects (cfg : Config) (c : ReqCtx)
    (hm : c.method = .GET) (hg : c.githubAuthValid = false) :
    (∀ r ∈ appRoutes cfg,
      (Middleware.checkGithubAuth ∈ r.middlewares ↔
        r ∈ githubSessionRoutes)) ∧
    (∀ r ∈ githubSessionRoutes,
      runRoute cfg c r = .redirect "/github/login") ∧
    ∀ (cfg2 : Config) (c2 : ReqCtx) (mw : Middleware) (loc : String),
      runMiddleware cfg2 c2 mw = some (.redirect loc) →
      mw = .checkGithubAuth ∧ loc = "/github/login" := by
  refine ⟨?_, ?_, ?_⟩
  · intro r hr
    by_cases hdbg : cfg.exceptionDebugMode ∨ cfg.nodeEnv = "development"
    · simp only [appRoutes, if_pos hdbg] at hr
      fin_cases hr <;> decide
    · simp only [appRoutes, if_neg hdbg] at hr
      fin_cases hr <;> decide
  · intro r hr
    fin_cases hr <;>
      · simp only [runRoute, githubSessionRoutes, getGitHubSetupRoute,
          getGitHubConfigurationRoute, listGitHubInstallationsRoute,
          runChain, runMiddleware, csrfIgnoreMethods, hm, hg]
        split_ifs <;> simp_all
  · intro cfg2 c2 mw loc h
    cases mw <;> simp [runMiddleware] at h <;> simp_all
    · split_ifs at h <;> simp_all

/-- Witness for C7: a concrete GET without a valid OAuth grant. -/
theorem c7_witness :
    (⟨.GET, false, none, false, false, false⟩ : ReqCtx).method = .GET ∧
    (⟨.GET, false, none, false, false, false⟩ : ReqCtx).githubAuthValid =
      false ∧
    ((∀ r ∈ appRoutes defaultConfig,
        (Middleware.checkGithubAuth ∈ r.middlewares ↔
          r ∈ githubSessionRoutes)) ∧
      (∀ r ∈ githubSessionRoutes,
        runRoute defaultConfig ⟨.GET, false, none, false, false, false⟩ r =
          .redirect "/github/login") ∧
      ∀ (cfg2 : Config) (c2 : ReqCtx) (mw : Middleware) (loc : String),
        runMiddleware cfg2 c2 mw = some (.redirect loc) →
        mw = .checkGithubAuth ∧ loc = "/github/login") :=
  ⟨rfl, rfl, c7_github_auth_failure_redirects defaultConfig
    ⟨.GET, false, none, false, false, false⟩ rfl rfl⟩

end GitHubForJira
